import Mathlib

/-!
Shallow embedding of the UET Department Agent RAG workflow:
`src/nodes/reactnode.py` (the stage functions), `src/graph_builder/graph_builder.py`
(the workflow graph and `run`), and `backend/main.py` (the `/chat` endpoint
formatting). External collaborators (the language model, the document-store
retriever and the react agent) are modelled as oracles carried in an `Env`
record; each stage also reports the external calls it makes as `Effect` values.
-/

/-- Embedding of the Python `str.strip()` on a character list: drop whitespace
from both ends. -/
def trimChars (l : List Char) : List Char :=
  ((l.dropWhile Char.isWhitespace).reverse.dropWhile Char.isWhitespace).reverse

/-- Embedding of the `response.content.strip().upper()` normalisation performed
by the guardrail (ASCII uppercasing). -/
def pyStripUpper (s : String) : String :=
  ⟨(trimChars s.data).map Char.toUpper⟩

/-- Embedding of the Python substring test `pat in s`. -/
def strContains (s pat : String) : Bool :=
  decide (pat.data <:+: s.data)

/-- Python truthiness of an optional string: `None` and the empty string are
falsy, every other string is truthy. -/
def pyTruthy : Option String → Bool
  | none => false
  | some s => !(s == "")

/-- Embedding of the Python string slice `s[:n]`. -/
def pyTake (s : String) (n : Nat) : String :=
  ⟨s.data.take n⟩

/-- A retrieved passage record. The metadata mapping is reduced to the two keys
the code reads (`source` and `page`) next to the text content; an absent key is
`none`. Page numbers produced by the PDF loader are integers. -/
structure Doc where
  page_content : String
  source : Option String
  page : Option Int
  deriving Repr, DecidableEq

/-- Modelled from the spec: the `RAGState` record of `src/state/agent_state.py`,
a file that is not among the sources. Per the spec data model, `question` is
the input text, `answer` is optional text that is empty or absent until a stage
sets it, and `retrieved_docs` is an optional ordered sequence populated only by
the Retrieval Stage; constructor fields omitted at a call site default to
absent. -/
structure RAGState where
  question : String
  answer : Option String := none
  retrieved_docs : Option (List Doc) := none
  deriving Repr, DecidableEq

/-- One message produced by the react agent. `content` is `none` when the
attribute is absent; the code reads it as `getattr(msg, "content", None)`. -/
structure AgentMessage where
  content : Option String
  deriving Repr, DecidableEq

/-- Oracles for the external collaborators: the language-model reply seen by
the guardrail, the document-store result sequence for a query, and the react
agent message sequence for a question. -/
structure Env where
  llmReply : String
  storeDocs : String → List Doc
  agentMessages : String → List AgentMessage

/-- External calls a stage makes, recorded for the effect claims. -/
inductive Effect where
  | llmCall (msgs : List (String × String)) : Effect
  | storeQuery (q : String) : Effect
  | agentInvoke (q : String) : Effect
  deriving Repr, DecidableEq

/-- The sentinel refusal answer written by the guardrail. -/
def refusalSentinel : String := "I only answer department information."

/-- The substring that the graph conditional looks for inside `answer`. -/
def refusalCheck : String := "I only answer department information"

/-- The fixed guardrail classification system prompt from `RAGNodes.guardrail`. -/
def guardrailSystemPrompt : String :=
  "You are a strict filter for a University Department chatbot. Your ONLY job is to classify if the question is about the University, Computer Science Department, Admissions, Faculty, Courses, or the Prospectus.\nRules:\n1. Greetings (Hi, Hello) -> Reply 'NO'\n2. General Knowledge (What is Python?, Who is Obama?) -> Reply 'NO'\n3. Department Questions (Who is the HOD?, Fee structure?) -> Reply 'YES'\n\nReply strictly with 'YES' or 'NO'."

/-- The two messages the guardrail sends to the language model: the fixed
system prompt and the user question. -/
def guardrailMessages (q : String) : List (String × String) :=
  [("system", guardrailSystemPrompt), ("human", q)]

/-- Embedding of `RAGNodes.guardrail`: normalise the language-model reply and
branch on whether it contains `"NO"`. The single `llm.invoke` call is reported
as an `Effect.llmCall`. The constructor field omitted in the source
(`retrieved_docs`) takes the default `none`. -/
def guardrail (env : Env) (s : RAGState) : RAGState × List Effect :=
  let decision := pyStripUpper env.llmReply
  if strContains decision "NO" then
    ({ question := s.question, answer := some refusalSentinel },
     [Effect.llmCall (guardrailMessages s.question)])
  else
    ({ question := s.question, answer := some "" },
     [Effect.llmCall (guardrailMessages s.question)])

/-- Embedding of `RAGNodes.retrieve_docs`: query the retriever with the
question and store the result sequence. The source builds a fresh record
without the `answer` field; the effect of that omission is decided by
`agent_state.py`, which is not among the sources, and is modelled from the
spec: the Retrieval Stage does not modify `answer`. -/
def retrieve_docs (env : Env) (s : RAGState) : RAGState × List Effect :=
  ({ question := s.question, answer := s.answer,
     retrieved_docs := some (env.storeDocs s.question) },
   [Effect.storeQuery s.question])

/-- The fixed fallback answer of the answer stage. -/
def fallbackAnswer : String := "Could not generate answer."

/-- Embedding of the result extraction in `RAGNodes.generate_answer`: take the
content of the last message; a missing last message, an absent content
attribute and an empty string all fall back, per
`answer or "Could not generate answer."`. -/
def extractAnswer (msgs : List AgentMessage) : String :=
  match msgs.getLast? with
  | none => fallbackAnswer
  | some m =>
    match m.content with
    | none => fallbackAnswer
    | some c => if c = "" then fallbackAnswer else c

/-- Embedding of `RAGNodes.generate_answer`: invoke the react agent on the
question and rebuild the state with the extracted answer, keeping `question`
and `retrieved_docs`. -/
def generate_answer (env : Env) (s : RAGState) : RAGState × List Effect :=
  ({ question := s.question, retrieved_docs := s.retrieved_docs,
     answer := some (extractAnswer (env.agentMessages s.question)) },
   [Effect.agentInvoke s.question])

/-- Embedding of `check_guardrail` in `GraphBuilder.build`: the Python test
`state.answer and "I only answer department information" in state.answer`. -/
def check_guardrail (s : RAGState) : String :=
  if pyTruthy s.answer && strContains (s.answer.getD "") refusalCheck then "end"
  else "continue"

/-- The four nodes of the compiled workflow graph; `END` is `terminal`. -/
inductive Node where
  | guardrail : Node
  | retriever : Node
  | responder : Node
  | terminal : Node
  deriving Repr, DecidableEq

/-- The edges added in `GraphBuilder.build`: after `guardrail` the conditional
mapping sends "end" to `END` and "continue" to `retriever`; the edges
`retriever -> responder` and `responder -> END` are unconditional. The
conditional is evaluated on the state the node returned. -/
def nextNode : Node → RAGState → Node
  | Node.guardrail, s => if check_guardrail s = "end" then Node.terminal else Node.retriever
  | Node.retriever, _ => Node.responder
  | Node.responder, _ => Node.terminal
  | Node.terminal, _ => Node.terminal

/-- Runs the stage function registered for a node in `GraphBuilder.build`. -/
def applyNode (env : Env) : Node → RAGState → RAGState × List Effect
  | Node.guardrail, s => guardrail env s
  | Node.retriever, s => retrieve_docs env s
  | Node.responder, s => generate_answer env s
  | Node.terminal, s => (s, [])

/-- Result of driving the graph: the final state, the stage nodes executed in
order, the external calls made, and the node at which execution stopped. -/
structure ExecResult where
  state : RAGState
  visited : List Node
  effects : List Effect
  stopped : Node
  deriving Repr, DecidableEq

/-- Fuel-indexed execution of the workflow graph from a node. -/
def exec (env : Env) : Nat → Node → RAGState → ExecResult
  | 0, n, s => { state := s, visited := [], effects := [], stopped := n }
  | fuel + 1, n, s =>
    if n = Node.terminal then
      { state := s, visited := [], effects := [], stopped := Node.terminal }
    else
      let p := applyNode env n s
      let r := exec env fuel (nextNode n p.1) p.1
      { state := r.state, visited := n :: r.visited, effects := p.2 ++ r.effects,
        stopped := r.stopped }

/-- Embedding of `GraphBuilder.run`: a fresh state holding only the question,
executed from the entry node `guardrail`; three units of fuel suffice, as
proved below. -/
def run (env : Env) (question : String) : ExecResult :=
  exec env 3 Node.guardrail { question := question }

/-- A response citation record of the `/chat` endpoint. -/
structure Citation where
  source : String
  page_content : String
  deriving Repr, DecidableEq

/-- Embedding of the citation construction in `chat_endpoint` of
`backend/main.py`: the source label carries " (Page n)" only when the metadata
page value is truthy (present and nonzero), and the content is the
200-character slice of the passage plus an ellipsis. -/
def formatCitation (d : Doc) : Citation :=
  let source_name := d.source.getD "Unknown Source"
  let src_label :=
    match d.page with
    | none => source_name
    | some p => if p = 0 then source_name else source_name ++ " (Page " ++ toString p ++ ")"
  { source := src_label, page_content := pyTake d.page_content 200 ++ "..." }

/-- Embedding of the answer extraction in `chat_endpoint`:
`result.get("answer", "")`. -/
def chatAnswer (r : RAGState) : String :=
  r.answer.getD ""

/-- Embedding of the citations list in `chat_endpoint`: built only when
`retrieved_docs` is present and truthy (a non-empty sequence). -/
def chatCitations (r : RAGState) : List Citation :=
  match r.retrieved_docs with
  | none => []
  | some ds => if ds.isEmpty then [] else ds.map formatCitation

/-- A rank on nodes, strictly increased by every transition out of a
non-terminal node; used to state that the stage graph has no cycles. -/
def nodeRank : Node → Nat
  | Node.guardrail => 0
  | Node.retriever => 1
  | Node.responder => 2
  | Node.terminal => 3

/-- Concrete environment whose guardrail reply is a refusal, for witnesses. -/
def envRefuse : Env :=
  { llmReply := " no. ", storeDocs := fun _ => [], agentMessages := fun _ => [] }

/-- Concrete passage record with a nonzero page number. -/
def docPage3 : Doc :=
  { page_content := "CS department prospectus text", source := some "prospectus.pdf",
    page := some 3 }

/-- Concrete environment whose guardrail reply passes and whose agent echoes
the sentinel refusal text, for the C4 counterexample. -/
def envEchoSentinel : Env :=
  { llmReply := "YES", storeDocs := fun _ => [docPage3],
    agentMessages := fun _ => [{ content := some "I only answer department information." }] }

/-- Concrete environment whose guardrail reply passes and whose agent gives an
ordinary answer. -/
def envOrdinary : Env :=
  { llmReply := "YES", storeDocs := fun _ => [docPage3],
    agentMessages := fun _ => [{ content := some "Dr. X is the HOD." }] }

/-- Concrete environment whose agent produces no messages. -/
def envNoMessages : Env :=
  { llmReply := "YES", storeDocs := fun _ => [docPage3],
    agentMessages := fun _ => [] }

/-- Concrete passage record whose metadata page number is zero. -/
def docPage0 : Doc :=
  { page_content := "Introduction page", source := some "prospectus.pdf", page := some 0 }

/-- Concrete passage record with page number two. -/
def docPage2 : Doc :=
  { page_content := "Fee structure", source := some "prospectus.pdf", page := some 2 }

theorem exec_terminal (env : Env) (fuel : Nat) (s : RAGState) :
    exec env fuel Node.terminal s =
      { state := s, visited := [], effects := [], stopped := Node.terminal } := by
  cases fuel <;> simp [exec]

theorem check_guardrail_refused (s : RAGState) (hs : s.answer = some refusalSentinel) :
    check_guardrail s = "end" := by
  have hb : (pyTruthy (some refusalSentinel) &&
      strContains ((some refusalSentinel).getD "") refusalCheck) = true := by decide
  simp [check_guardrail, hs]
  simp [pyTruthy, refusalSentinel, refusalCheck, strContains] at hb ⊢
  exact hb

theorem check_guardrail_empty (s : RAGState) (hs : s.answer = some "") :
    check_guardrail s = "continue" := by
  have hb : (pyTruthy (some "") &&
      strContains ((some "").getD "") refusalCheck) = false := by decide
  simp [check_guardrail, hs]
  simp [pyTruthy] at hb ⊢

theorem run_refused (env : Env) (q : String)
    (h : strContains (pyStripUpper env.llmReply) "NO" = true) :
    run env q =
      { state := { question := q, answer := some refusalSentinel },
        visited := [Node.guardrail],
        effects := [Effect.llmCall (guardrailMessages q)],
        stopped := Node.terminal } := by
  have hc : check_guardrail { question := q, answer := some refusalSentinel } = "end" :=
    check_guardrail_refused _ rfl
  simp [run, exec, applyNode, guardrail, h, nextNode, hc, exec_terminal]

theorem run_passed (env : Env) (q : String)
    (h : strContains (pyStripUpper env.llmReply) "NO" = false) :
    run env q =
      { state := { question := q,
                   answer := some (extractAnswer (env.agentMessages q)),
                   retrieved_docs := some (env.storeDocs q) },
        visited := [Node.guardrail, Node.retriever, Node.responder],
        effects := [Effect.llmCall (guardrailMessages q),
                    Effect.storeQuery q, Effect.agentInvoke q],
        stopped := Node.terminal } := by
  have hc : check_guardrail { question := q, answer := some "" } = "continue" :=
    check_guardrail_empty _ rfl
  simp [run, exec, applyNode, guardrail, h, nextNode, hc, exec_terminal,
        retrieve_docs, generate_answer]

theorem exec_fuel (env : Env) (q : String) (k : Nat) :
    exec env (k + 3) Node.guardrail { question := q } = run env q := by
  cases hb : strContains (pyStripUpper env.llmReply) "NO"
  · have hc : check_guardrail { question := q, answer := some "" } = "continue" :=
      check_guardrail_empty _ rfl
    rw [run_passed env q hb]
    show exec env ((k + 2) + 1) Node.guardrail { question := q } = _
    simp [exec, applyNode, guardrail, hb, nextNode, hc, exec_terminal,
          retrieve_docs, generate_answer]
  · have hc : check_guardrail { question := q, answer := some refusalSentinel } = "end" :=
      check_guardrail_refused _ rfl
    rw [run_refused env q hb]
    show exec env ((k + 2) + 1) Node.guardrail { question := q } = _
    simp [exec, applyNode, guardrail, hb, nextNode, hc, exec_terminal]

theorem strContains_refusal_ne_empty (a : String)
    (h : strContains a refusalCheck = true) : a ≠ "" := by
  intro ha
  subst ha
  have hf : strContains "" refusalCheck = false := by decide
  rw [hf] at h
  simp at h

theorem check_guardrail_end_iff (s : RAGState) :
    check_guardrail s = "end" ↔
      ∃ a, s.answer = some a ∧ strContains a refusalCheck = true := by
  have hne : ("continue" : String) ≠ "end" := by decide
  cases ha : s.answer with
  | none => simp [check_guardrail, ha, pyTruthy, hne]
  | some a =>
    cases hc : strContains a refusalCheck with
    | false => simp [check_guardrail, ha, pyTruthy, hc, hne]
    | true =>
      have hae : a ≠ "" := strContains_refusal_ne_empty a hc
      simp [check_guardrail, ha, pyTruthy, hc, hae]

/-- C1: the guardrail makes exactly one language-model call; its returned
answer is the sentinel refusal exactly when the trimmed, uppercased reply
contains the substring NO (and `retrieved_docs` is then unset); otherwise the
answer is the empty string; the question passes through unchanged. The
decision is a function of the normalised reply alone. -/
theorem guardrail_decision (env : Env) (s : RAGState) :
    (guardrail env s).2 = [Effect.llmCall (guardrailMessages s.question)] ∧
    (guardrail env s).1.question = s.question ∧
    ((guardrail env s).1.answer = some refusalSentinel ↔
      strContains (pyStripUpper env.llmReply) "NO" = true) ∧
    (strContains (pyStripUpper env.llmReply) "NO" = true →
      (guardrail env s).1.retrieved_docs = none) ∧
    (strContains (pyStripUpper env.llmReply) "NO" = false →
      (guardrail env s).1.answer = some "") := by
  have hne : ("" : String) ≠ refusalSentinel := by decide
  cases hb : strContains (pyStripUpper env.llmReply) "NO" <;>
    simp [guardrail, hb, hne]

/-- Witness for C1 at the concrete reply " no. ". -/
theorem guardrail_decision_witness :
    (guardrail envRefuse { question := "Hi" }).1.answer = some refusalSentinel ∧
    (guardrail envRefuse { question := "Hi" }).1.retrieved_docs = none :=
  ⟨(guardrail_decision envRefuse { question := "Hi" }).2.2.1.mpr (by decide),
   (guardrail_decision envRefuse { question := "Hi" }).2.2.2.1 (by decide)⟩

/-- C2: from `guardrail` the workflow steps to the terminal node exactly when
the resulting answer contains the sentinel refusal substring, and to
`retriever` otherwise; the `retriever -> responder` and
`responder -> terminal` transitions are unconditional. -/
theorem orchestrator_transitions (s : RAGState) :
    (nextNode Node.guardrail s = Node.terminal ↔
      ∃ a, s.answer = some a ∧ strContains a refusalCheck = true) ∧
    (nextNode Node.guardrail s = Node.retriever ↔
      ¬ ∃ a, s.answer = some a ∧ strContains a refusalCheck = true) ∧
    nextNode Node.retriever s = Node.responder ∧
    nextNode Node.responder s = Node.terminal := by
  refine ⟨?_, ?_, rfl, rfl⟩ <;>
  · rw [← check_guardrail_end_iff]
    by_cases h : check_guardrail s = "end" <;> simp [nextNode, h]

/-- Witness for C2 at a concrete refusal state. -/
theorem orchestrator_transitions_witness :
    nextNode Node.guardrail { question := "Hi", answer := some refusalSentinel } =
      Node.terminal :=
  (orchestrator_transitions
    { question := "Hi", answer := some refusalSentinel }).1.mpr
    ⟨refusalSentinel, rfl, by decide⟩

/-- C3: the retrieval stage stores exactly the document-store result sequence
for the question as `retrieved_docs`, leaves the question unchanged and does
not modify the answer; its only external call is the one store query. -/
theorem retrieve_docs_contract (env : Env) (s : RAGState) :
    (retrieve_docs env s).1.retrieved_docs = some (env.storeDocs s.question) ∧
    (retrieve_docs env s).1.question = s.question ∧
    (retrieve_docs env s).1.answer = s.answer ∧
    (retrieve_docs env s).2 = [Effect.storeQuery s.question] :=
  ⟨rfl, rfl, rfl, rfl⟩

/-- C4 counterexample: when the guardrail passes and the react agent replies
with the sentinel text itself, `run` returns the sentinel answer together with
a non-empty `retrieved_docs`, so the claim quantified over all agent message
sequences fails. -/
theorem run_sentinel_nonempty_docs_counterexample :
    (run envEchoSentinel "Who is the HOD?").state.answer = some refusalSentinel ∧
    (run envEchoSentinel "Who is the HOD?").state.retrieved_docs = some [docPage3] ∧
    ([docPage3] : List Doc) ≠ [] := by decide

/-- C4 amended: whenever the answer the react agent produces is not itself the
sentinel string, `run` never returns a state with the sentinel answer and a
non-empty `retrieved_docs`. -/
theorem run_no_refusal_with_docs (env : Env) (q : String)
    (h : extractAnswer (env.agentMessages q) ≠ refusalSentinel) :
    ¬ ((run env q).state.answer = some refusalSentinel ∧
       ∃ ds, (run env q).state.retrieved_docs = some ds ∧ ds ≠ []) := by
  cases hb : strContains (pyStripUpper env.llmReply) "NO"
  · rw [run_passed env q hb]
    rintro ⟨h1, -⟩
    simp at h1
    exact h h1
  · rw [run_refused env q hb]
    rintro ⟨-, ds, hds, -⟩
    simp at hds

/-- Witness for the amended C4 at a concrete ordinary agent answer. -/
theorem run_no_refusal_with_docs_witness :
    ¬ ((run envOrdinary "q").state.answer = some refusalSentinel ∧
       ∃ ds, (run envOrdinary "q").state.retrieved_docs = some ds ∧ ds ≠ []) :=
  run_no_refusal_with_docs envOrdinary "q" (by decide)

/-- C5: when the normalised guardrail reply contains NO, `run` ends with the
sentinel answer, `retrieved_docs` unset, exactly one external call (the
guardrail language-model call, in particular no document-store query and no
agent invocation), and execution stopped at the terminal node. -/
theorem refusal_short_circuit (env : Env) (q : String)
    (h : strContains (pyStripUpper env.llmReply) "NO" = true) :
    (run env q).state.answer = some refusalSentinel ∧
    (run env q).state.retrieved_docs = none ∧
    (run env q).effects = [Effect.llmCall (guardrailMessages q)] ∧
    (∀ e ∈ (run env q).effects,
      (∀ v, e ≠ Effect.storeQuery v) ∧ (∀ v, e ≠ Effect.agentInvoke v)) ∧
    (run env q).stopped = Node.terminal := by
  rw [run_refused env q h]
  refine ⟨rfl, rfl, rfl, ?_, rfl⟩
  intro e he
  simp at he
  subst he
  exact ⟨fun v => by simp, fun v => by simp⟩

/-- Witness for C5 at the concrete reply " no. ". -/
theorem refusal_short_circuit_witness :
    (run envRefuse "Hi").state.answer = some refusalSentinel ∧
    (run envRefuse "Hi").state.retrieved_docs = none ∧
    (run envRefuse "Hi").effects = [Effect.llmCall (guardrailMessages "Hi")] ∧
    (∀ e ∈ (run envRefuse "Hi").effects,
      (∀ v, e ≠ Effect.storeQuery v) ∧ (∀ v, e ≠ Effect.agentInvoke v)) ∧
    (run envRefuse "Hi").stopped = Node.terminal :=
  refusal_short_circuit envRefuse "Hi" (by decide)

/-- C6: the answer stage takes the content of the final agent message as the
answer, and a missing message list, an absent content attribute or empty
content all yield the fixed fallback string. -/
theorem generate_answer_extraction (env : Env) (s : RAGState) :
    fallbackAnswer = "Could not generate answer." ∧
    (generate_answer env s).1.answer =
      some (extractAnswer (env.agentMessages s.question)) ∧
    (env.agentMessages s.question = [] →
      (generate_answer env s).1.answer = some fallbackAnswer) ∧
    (∀ m, (env.agentMessages s.question).getLast? = some m →
      m.content = none ∨ m.content = some "" →
      (generate_answer env s).1.answer = some fallbackAnswer) ∧
    (∀ m c, (env.agentMessages s.question).getLast? = some m → m.content = some c →
      c ≠ "" → (generate_answer env s).1.answer = some c) := by
  refine ⟨rfl, rfl, ?_, ?_, ?_⟩
  · intro h
    simp [generate_answer, extractAnswer, h]
  · intro m hm hc
    rcases hc with hc | hc <;> simp [generate_answer, extractAnswer, hm, hc]
  · intro m c hm hc hne
    simp [generate_answer, extractAnswer, hm, hc, hne]

/-- Witness for C6 at an agent that produces no messages. -/
theorem generate_answer_extraction_witness :
    (generate_answer envNoMessages { question := "q" }).1.answer =
      some fallbackAnswer :=
  (generate_answer_extraction envNoMessages { question := "q" }).2.2.1 rfl

/-- C7: the answer stage preserves `retrieved_docs` and `question` unchanged,
for every input state and every agent output. -/
theorem generate_answer_frame (env : Env) (s : RAGState) :
    (generate_answer env s).1.retrieved_docs = s.retrieved_docs ∧
    (generate_answer env s).1.question = s.question :=
  ⟨rfl, rfl⟩

/-- C8: every run stops at the terminal node after at most three stage
executions with no stage repeated; every transition out of a non-terminal node
strictly increases the node rank (the stage graph has no cycles); and any fuel
of at least three yields the same execution result. -/
theorem run_terminates (env : Env) (q : String) :
    (run env q).stopped = Node.terminal ∧
    (run env q).visited.length ≤ 3 ∧
    (run env q).visited.Nodup ∧
    (∀ n s, n ≠ Node.terminal → nodeRank n < nodeRank (nextNode n s)) ∧
    (∀ k, exec env (k + 3) Node.guardrail { question := q } = run env q) := by
  have h3 : ∀ n s, n ≠ Node.terminal → nodeRank n < nodeRank (nextNode n s) := by
    intro n s hn
    cases n with
    | guardrail =>
      by_cases h : check_guardrail s = "end" <;> simp [nextNode, nodeRank, h]
    | retriever => simp [nextNode, nodeRank]
    | responder => simp [nextNode, nodeRank]
    | terminal => exact absurd rfl hn
  have hfuel := exec_fuel env q
  cases hb : strContains (pyStripUpper env.llmReply) "NO"
  · rw [run_passed env q hb] at hfuel ⊢
    exact ⟨rfl, by simp, by simp, h3, hfuel⟩
  · rw [run_refused env q hb] at hfuel ⊢
    exact ⟨rfl, by simp, by simp, h3, hfuel⟩

/-- Witness for C8 at a concrete environment, with the rank inequality
instantiated at the entry node. -/
theorem run_terminates_witness :
    (run envRefuse "Hi").stopped = Node.terminal ∧
    nodeRank Node.guardrail <
      nodeRank (nextNode Node.guardrail { question := "Hi" }) :=
  ⟨(run_terminates envRefuse "Hi").1,
   (run_terminates envRefuse "Hi").2.2.2.1 Node.guardrail { question := "Hi" }
     (by decide)⟩

/-- C9 counterexample: a passage whose metadata carries page number zero. The
page number is present, yet the code formats the citation source without the
page, because the Python truthiness test treats zero as absent. -/
theorem citation_format_counterexample :
    docPage0.page = some 0 ∧
    (formatCitation docPage0).source = "prospectus.pdf" ∧
    (formatCitation docPage0).source ≠ "prospectus.pdf (Page 0)" := by decide

/-- C9 amended: the citation source is formatted with the page suffix exactly
when a nonzero page number is present (a present page number of zero is
treated like an absent one by the truthiness test); the citation content is
the 200-character slice of the passage followed by a literal ellipsis. -/
theorem citation_format (d : Doc) :
    (∀ p, d.page = some p → p ≠ 0 →
      (formatCitation d).source =
        (d.source.getD "Unknown Source") ++ " (Page " ++ toString p ++ ")") ∧
    (d.page = none ∨ d.page = some 0 →
      (formatCitation d).source = d.source.getD "Unknown Source") ∧
    (formatCitation d).page_content = pyTake d.page_content 200 ++ "..." := by
  refine ⟨?_, ?_, rfl⟩
  · intro p hp hne
    simp [formatCitation, hp, hne]
  · intro hp
    rcases hp with hp | hp <;> simp [formatCitation, hp]

/-- Witness for the amended C9 at a concrete passage with page number two. -/
theorem citation_format_witness :
    (formatCitation docPage2).source =
      (docPage2.source.getD "Unknown Source") ++ " (Page " ++ toString (2 : Int) ++ ")" :=
  (citation_format docPage2).1 2 rfl (by decide)

/-- C10: the chat endpoint returns an empty citations list when
`retrieved_docs` is absent or empty, in particular on the guardrail refusal
path, and returns the empty string when the result has no answer field. -/
theorem chat_endpoint_defaults (r : RAGState) (env : Env) (q : String) :
    (r.retrieved_docs = none → chatCitations r = []) ∧
    (r.retrieved_docs = some [] → chatCitations r = []) ∧
    (r.answer = none → chatAnswer r = "") ∧
    (strContains (pyStripUpper env.llmReply) "NO" = true →
      chatCitations (run env q).state = []) := by
  refine ⟨?_, ?_, ?_, ?_⟩
  · intro h
    simp [chatCitations, h]
  · intro h
    simp [chatCitations, h]
  · intro h
    simp [chatAnswer, h]
  · intro h
    rw [run_refused env q h]
    rfl

/-- Witness for C10 at a fresh state and the concrete refusal environment. -/
theorem chat_endpoint_defaults_witness :
    chatCitations { question := "w" } = [] ∧
    chatAnswer { question := "w" } = "" ∧
    chatCitations (run envRefuse "Hi").state = [] :=
  ⟨(chat_endpoint_defaults { question := "w" } envRefuse "Hi").1 rfl,
   (chat_endpoint_defaults { question := "w" } envRefuse "Hi").2.2.1 rfl,
   (chat_endpoint_defaults { question := "w" } envRefuse "Hi").2.2.2 (by decide)⟩
